import Mathlib

/-!
Verification of the telemetry-level configuration logic of the collector
(`internal/collector/telemetry/telemetry.go`).

The Go package keeps its configuration in module-level pointer variables
(`metricsLevelPtr`, `metricsAddrPtr`, ...) that the `Flags` function sets to
the registered flag defaults.  We embed that process-wide state as an explicit
record `TelemetryState` in which a Go `nil` pointer is `Option.none` and a set
pointer is `Option.some v`; every function of the package becomes a pure Lean
function over this record, mirroring the Go source line by line.
-/

namespace telemetry

/-- Go: `type Level int8` — the level of telemetry data to be generated.
All values of interest lie well inside the int8 range `[-128, 127]` and the
package performs no arithmetic on them, so the type is modelled as `Int`. -/
abbrev Level := Int

/-- Go: `None Level = iota - 1` — no telemetry data should be collected.
The level constants share a single `const` block with the three string
ConstSpecs `metricsAddrCfg`, `metricsLevelCfg`, `metricsPrefixCfg`, and Go's
`iota` counts ConstSpecs of the whole block, so `iota` is already 3 at the
`None` ConstSpec: `None = 3 - 1`. -/
def None : Level := 3 - 1

/-- Go: `Basic` — repeats the expression `iota - 1` with `iota = 4` at its
ConstSpec, so `Basic = 4 - 1` (not the zero value of `Level`). -/
def Basic : Level := 4 - 1

/-- Go: `Normal` — `iota - 1` with `iota = 5`: `Normal = 5 - 1`. -/
def Normal : Level := 5 - 1

/-- Go: `Detailed` — `iota - 1` with `iota = 6`: `Detailed = 6 - 1`. -/
def Detailed : Level := 6 - 1

/-- One rune of Go `strings.ToLower`, ASCII fragment: an upper-case ASCII
letter (code 65–90) is shifted by 32 to its lower-case form, every other
character is returned unchanged.  (Go's `strings.ToLower` additionally folds
non-ASCII Unicode upper-case letters via case tables; every level keyword and
every input exercised in this development is ASCII, where the two agree.) -/
def lowerChar (c : Char) : Char :=
  if 65 ≤ c.toNat ∧ c.toNat ≤ 90 then Char.ofNat (c.toNat + 32) else c

/-- Model of Go `strings.ToLower`: lower-case every rune of the string. -/
def toLowerGo (s : String) : String := String.mk (s.data.map lowerChar)

/-- One lower-case hexadecimal digit, as in Go `strconv`'s `lowerhex` table. -/
def hexDigit (n : Nat) : Char :=
  if n < 10 then Char.ofNat (48 + n) else Char.ofNat (87 + n)

/-- One rune of Go `strconv.Quote` (the body of the `%q` verb of
`fmt.Errorf`): a double quote or backslash is backslash-escaped, a printable
ASCII rune (code 32–126) is kept as is, the control characters with short
escape forms become `\a \b \f \n \r \t \v`, and any other rune below 32 (or
code 127) becomes a two-digit `\x` escape.  (For non-ASCII runes Go consults
its Unicode `IsPrint` tables and `\u`-escapes non-printable ones; that
table-driven branch is not modelled — every input exercised here is ASCII,
where this definition agrees with Go exactly.) -/
def quoteChar (c : Char) : List Char :=
  if c = '\"' ∨ c = '\\' then ['\\', c]
  else if 32 ≤ c.toNat ∧ c.toNat ≤ 126 then [c]
  else if c = '\x07' then ['\\', 'a']
  else if c = '\x08' then ['\\', 'b']
  else if c = '\x0c' then ['\\', 'f']
  else if c = '\n' then ['\\', 'n']
  else if c = '\r' then ['\\', 'r']
  else if c = '\t' then ['\\', 't']
  else if c = '\x0b' then ['\\', 'v']
  else if c.toNat < 32 ∨ c.toNat = 127 then
    ['\\', 'x', hexDigit (c.toNat / 16), hexDigit (c.toNat % 16)]
  else [c]

/-- Model of Go `strconv.Quote` (what `%q` prints for a string): the quoted
escapes of the runes, wrapped in double quotes. -/
def goQuote (s : String) : String :=
  String.mk ('\"' :: (s.data.map quoteChar).flatten ++ ['\"'])

/-- The message of `fmt.Errorf("unknown metrics level %q", str)`. -/
def unknownLevelMsg (str : String) : String :=
  "unknown metrics level " ++ goQuote str

/-- The module-level pointer variables of the Go package.  A Go `nil` pointer
is `Option.none`; a pointer set by flag registration is `Option.some v`. -/
structure TelemetryState where
  metricsLevelPtr : Option String
  metricsAddrPtr : Option String
  metricsPrefixPtr : Option String
  useLegacyMetricsPtr : Option Bool
  useNewMetricsPtr : Option Bool
  addInstanceIDPtr : Option Bool

/-- Go `GetMetricsAddrDefault`: the default metrics bind address and port,
depending on the current build type.  `version.IsDevBuild()` lives outside
this package and is passed in as the boolean argument. -/
def GetMetricsAddrDefault (isDevBuild : Bool) : String :=
  if isDevBuild then "localhost:8888" else ":8888"

/-- Go `Flags`: registers the command-line flags; each module-level pointer
then holds the registered default value (the state before any command-line
override).  The defaults are taken verbatim from the source. -/
def Flags (isDevBuild : Bool) : TelemetryState :=
  { metricsLevelPtr := Option.some "BASIC"
  , metricsAddrPtr := Option.some ( GetMetricsAddrDefault isDevBuild)
  , metricsPrefixPtr := Option.some "otelcol"
  , useLegacyMetricsPtr := Option.some false
  , useNewMetricsPtr := Option.some true
  , addInstanceIDPtr := Option.some true }

/-- Go `GetLevel`: lower-cases the string behind `metricsLevelPtr` (a `nil`
pointer leaves `str` as the empty string) and switches on the result; the
default arm returns the never-assigned `var level Level` (that is, the zero
value `0`) together with the formatted error.  The Go error is modelled as
`Option String` carrying the message (`Option.none` = `nil` error). -/
def GetLevel (st : TelemetryState) : Level × Option String :=
  let str := match st.metricsLevelPtr with
    | Option.none => ""
    | Option.some p => toLowerGo p
  if str = "none" then ( None, Option.none)
  else if str = "" ∨ str = "basic" then ( Basic, Option.none)
  else if str = "normal" then ( Normal, Option.none)
  else if str = "detailed" then ( Detailed, Option.none)
  else ((0 : Level), Option.some (unknownLevelMsg str))

/-- One call of `GetLevel` as a state transformer: the Go function only reads
the module-level state (its body contains no assignment to any module-level
variable), so the state component of the call is returned unchanged. -/
def GetLevelCall (st : TelemetryState) : (Level × Option String) × TelemetryState :=
  ( GetLevel st, st)

/-- Go `GetAddInstanceID`: dereferences `addInstanceIDPtr` (panics on `nil`,
hence the `Option` result). -/
def GetAddInstanceID (st : TelemetryState) : Option Bool := st.addInstanceIDPtr

/-- Go `GetMetricsAddr`: dereferences `metricsAddrPtr`. -/
def GetMetricsAddr (st : TelemetryState) : Option String := st.metricsAddrPtr

/-- Go `GetMetricsPrefix`: dereferences `metricsPrefixPtr`. -/
def GetMetricsPrefix (st : TelemetryState) : Option String := st.metricsPrefixPtr

/-- Go `UseLegacyMetrics`: dereferences `useLegacyMetricsPtr`. -/
def UseLegacyMetrics (st : TelemetryState) : Option Bool := st.useLegacyMetricsPtr

/-- Go `UseNewMetrics`: dereferences `useNewMetricsPtr`. -/
def UseNewMetrics (st : TelemetryState) : Option Bool := st.useNewMetricsPtr

/-- A state whose level pointer holds the given value and whose remaining
pointers are `nil` — the state used to exercise `GetLevel` on one input. -/
def stateWithLevel (p : Option String) : TelemetryState :=
  { metricsLevelPtr := p
  , metricsAddrPtr := Option.none
  , metricsPrefixPtr := Option.none
  , useLegacyMetricsPtr := Option.none
  , useNewMetricsPtr := Option.none
  , addInstanceIDPtr := Option.none }

/-- A character that is printable ASCII and neither a double quote nor a
backslash passes through `quoteChar` unescaped. -/
theorem quoteChar_eq_self (c : Char) (h1 : 32 ≤ c.toNat) (h2 : c.toNat ≤ 126)
    (h3 : c ≠ '\"') (h4 : c ≠ '\\') : quoteChar c = [c] := by
  unfold quoteChar
  rw [if_neg (by simp [h3, h4]), if_pos ⟨h1, h2⟩]

/-- If every character of a list is kept unescaped by `quoteChar`, the
concatenation of the per-character quotations is the list itself. -/
theorem flatten_map_quoteChar (l : List Char) (h : ∀ c ∈ l, quoteChar c = [c]) :
    (l.map quoteChar).flatten = l := by
  induction l with
  | nil => rfl
  | cons a t ih =>
    simp only [List.map_cons, List.flatten_cons]
    rw [h a (List.mem_cons_self a t), ih (fun c hc => h c (List.mem_cons_of_mem a hc))]
    rfl

/-- Claim C1: `GetLevel` lower-cases the configured string before matching —
so any two inputs with the same lower-cased form resolve identically — and
maps `""` and `"basic"` to `Basic`, `"none"` to `None`, `"normal"` to
`Normal`, `"detailed"` to `Detailed`, each with a `nil` error; in particular
the case variants `"BASIC"`, `"Basic"`, `"basic"` all resolve to `Basic`. -/
theorem C1_level_resolution_case_insensitive :
    (∀ st st' : TelemetryState, ∀ s s' : String,
      st.metricsLevelPtr = Option.some s → st'.metricsLevelPtr = Option.some s' →
      toLowerGo s = toLowerGo s' → GetLevel st = GetLevel st') ∧
    GetLevel (stateWithLevel (Option.some "")) = ( Basic, Option.none) ∧
    GetLevel (stateWithLevel (Option.some "basic")) = ( Basic, Option.none) ∧
    GetLevel (stateWithLevel (Option.some "none")) = ( None, Option.none) ∧
    GetLevel (stateWithLevel (Option.some "normal")) = ( Normal, Option.none) ∧
    GetLevel (stateWithLevel (Option.some "detailed")) = ( Detailed, Option.none) ∧
    GetLevel (stateWithLevel (Option.some "BASIC")) = ( Basic, Option.none) ∧
    GetLevel (stateWithLevel (Option.some "Basic")) = ( Basic, Option.none) := by
  refine ⟨?_, by decide, by decide, by decide, by decide, by decide, by decide, by decide⟩
  intro st st' s s' h h' hl
  simp only [GetLevel, h, h', hl]

/-- Concrete instance of C1: the case variants `"BASIC"` and `"basic"`
resolve to the same result. -/
theorem C1_level_resolution_case_insensitive_witness :
    GetLevel (stateWithLevel (Option.some "BASIC")) =
      GetLevel (stateWithLevel (Option.some "basic")) :=
  C1_level_resolution_case_insensitive.1
    (stateWithLevel (Option.some "BASIC")) (stateWithLevel (Option.some "basic"))
    "BASIC" "basic" rfl rfl (by decide)

/-- Claim C2: `GetLevel` returns a non-`nil` error exactly when the
lower-cased input is none of `"none"`, `""`, `"basic"`, `"normal"`,
`"detailed"`; every string in that set (case-insensitively) succeeds and
every other string is rejected. -/
theorem C2_error_iff_unrecognized :
    ∀ st : TelemetryState, ∀ s : String, st.metricsLevelPtr = Option.some s →
      ((( GetLevel st).2 ≠ Option.none) ↔
        toLowerGo s ∉ (["none", "", "basic", "normal", "detailed"] : List String)) := by
  intro st s h
  simp only [GetLevel, h]
  generalize toLowerGo s = str
  split_ifs with h1 h2 h3 h4
  · simp_all
  · rcases h2 with h2 | h2 <;> simp_all
  · simp_all
  · simp_all
  · simp_all

/-- Concrete instance of C2 at the input `"bogus"`. -/
theorem C2_error_iff_unrecognized_witness :
    ((( GetLevel (stateWithLevel (Option.some "bogus"))).2 ≠ Option.none) ↔
      toLowerGo "bogus" ∉ (["none", "", "basic", "normal", "detailed"] : List String)) :=
  C2_error_iff_unrecognized (stateWithLevel (Option.some "bogus")) "bogus" rfl

/-- Claim C3 fails on this code: because the level constants sit in the same
`const` block as three string constants, `iota` is 3 at the `None` ConstSpec
and the program's values are `None = 2`, `Basic = 3`, `Normal = 4`,
`Detailed = 5`.  So `Basic` is not the zero value, `None` is not below zero,
the zero-valued `Level` names no constant at all, and the `Level` that
`GetLevel` returns on its error path (the zero value) is not `Basic` — the
`iota - 1` idiom and the comment calling `Basic` the default only make sense
with `iota = 0` at `None`, the layout the upstream repository has. -/
theorem C3_level_constants_not_zero_based :
    None = (2 : Level) ∧ Basic = (3 : Level) ∧
    Normal = (4 : Level) ∧ Detailed = (5 : Level) ∧
    ¬ (Basic = (0 : Level)) ∧ ¬ (None < (0 : Level)) ∧
    (0 : Level) ≠ Basic ∧ (0 : Level) ≠ None ∧
    ( GetLevel (stateWithLevel (Option.some "bad"))).1 ≠ Basic := by
  decide

/-- Counterexample to claim C4 as stated: for the unrecognized input `"\n"`
(whitespace-only), the error message is `unknown metrics level "\n"` — the
`%q` verb renders the newline as the two characters backslash-`n` — so the
message does not contain the case-folded offending string itself (the actual
newline character) as a substring. -/
theorem C4_message_newline_counterexample :
    toLowerGo "\n" ∉ (["none", "", "basic", "normal", "detailed"] : List String) ∧
    ( GetLevel (stateWithLevel (Option.some "\n"))).2 =
      Option.some "unknown metrics level \"\\n\"" ∧
    ¬ ((toLowerGo "\n").data <:+: "unknown metrics level \"\\n\"".data) ∧
    ( GetLevel (stateWithLevel (Option.some "\n"))).1 = (0 : Level) := by
  decide

/-- Claim C4 (amended): for every input whose lower-cased form is not a
recognized keyword, `GetLevel` returns the zero-value `Level` together with
an error whose message contains the `%q`-quoted form of the case-folded
offending string; the message contains the offending string itself whenever
that string consists only of printable ASCII characters other than the
double quote and the backslash. -/
theorem C4_error_carries_quoted_string :
    ∀ st : TelemetryState, ∀ s : String, st.metricsLevelPtr = Option.some s →
      toLowerGo s ∉ (["none", "", "basic", "normal", "detailed"] : List String) →
      ( GetLevel st).1 = (0 : Level) ∧
      ( GetLevel st).2 = Option.some (unknownLevelMsg (toLowerGo s)) ∧
      (goQuote (toLowerGo s)).data <:+: (unknownLevelMsg (toLowerGo s)).data ∧
      ((∀ c ∈ (toLowerGo s).data,
          32 ≤ c.toNat ∧ c.toNat ≤ 126 ∧ c ≠ '\"' ∧ c ≠ '\\') →
        (toLowerGo s).data <:+: (unknownLevelMsg (toLowerGo s)).data) := by
  intro st s h hmem
  simp only [List.mem_cons, List.mem_singleton, not_or] at hmem
  obtain ⟨h1, h2, h3, h4, h5, -⟩ := hmem
  have hswitch : GetLevel st = ((0 : Level), Option.some (unknownLevelMsg (toLowerGo s))) := by
    simp only [GetLevel, h]
    rw [if_neg h1, if_neg (by simp [h2, h3]), if_neg h4, if_neg h5]
  refine ⟨by rw [hswitch], by rw [hswitch], ?_, ?_⟩
  · exact (List.suffix_append "unknown metrics level ".data
      (goQuote (toLowerGo s)).data).isInfix.trans
      (by rw [unknownLevelMsg, String.data_append])
  · intro hsafe
    have hq : (goQuote (toLowerGo s)).data =
        '\"' :: (toLowerGo s).data ++ ['\"'] := by
      show '\"' :: ((toLowerGo s).data.map quoteChar).flatten ++ ['\"'] =
        '\"' :: (toLowerGo s).data ++ ['\"']
      rw [flatten_map_quoteChar (toLowerGo s).data
        (fun c hc => quoteChar_eq_self c (hsafe c hc).1 (hsafe c hc).2.1
          (hsafe c hc).2.2.1 (hsafe c hc).2.2.2)]
    refine ⟨"unknown metrics level ".data ++ ['\"'], ['\"'], ?_⟩
    rw [unknownLevelMsg, String.data_append, hq]
    simp

/-- Concrete instance of the amended C4 at the input `"bogus"`. -/
theorem C4_error_carries_quoted_string_witness :
    ( GetLevel (stateWithLevel (Option.some "bogus"))).1 = (0 : Level) ∧
    ( GetLevel (stateWithLevel (Option.some "bogus"))).2 =
      Option.some (unknownLevelMsg (toLowerGo "bogus")) ∧
    (goQuote (toLowerGo "bogus")).data <:+: (unknownLevelMsg (toLowerGo "bogus")).data ∧
    ((∀ c ∈ (toLowerGo "bogus").data,
        32 ≤ c.toNat ∧ c.toNat ≤ 126 ∧ c ≠ '\"' ∧ c ≠ '\\') →
      (toLowerGo "bogus").data <:+: (unknownLevelMsg (toLowerGo "bogus")).data) :=
  C4_error_carries_quoted_string (stateWithLevel (Option.some "bogus")) "bogus" rfl (by decide)

/-- Claim C5: the environment-sensitive default metrics address is
`localhost:8888` for a development build and `:8888` otherwise; the two
conjuncts cover every value of the boolean build-type flag. -/
theorem C5_metrics_addr_default_by_build_type :
    GetMetricsAddrDefault true = "localhost:8888" ∧
    GetMetricsAddrDefault false = ":8888" := by
  decide

/-- Claim C6: the four `Level` constants are totally ordered with
`None < Basic < Normal < Detailed`. -/
theorem C6_level_ordering :
    None < Basic ∧ Basic < Normal ∧ Normal < Detailed := by
  decide

/-- Claim C7: matching is exact after case-folding — any successfully
resolved input lower-cases to exactly one of the five keywords, and in
particular `" basic"` (leading space), `"basic "` (trailing space), the
numeric string `"1"`, the proper prefix `"basi"` and the proper extension
`"basics"` are all rejected with an error. -/
theorem C7_exact_match_after_folding :
    (∀ st : TelemetryState, ∀ s : String, st.metricsLevelPtr = Option.some s →
      ( GetLevel st).2 = Option.none →
      toLowerGo s ∈ (["none", "", "basic", "normal", "detailed"] : List String)) ∧
    ( GetLevel (stateWithLevel (Option.some " basic"))).2 ≠ Option.none ∧
    ( GetLevel (stateWithLevel (Option.some "basic "))).2 ≠ Option.none ∧
    ( GetLevel (stateWithLevel (Option.some "1"))).2 ≠ Option.none ∧
    ( GetLevel (stateWithLevel (Option.some "basi"))).2 ≠ Option.none ∧
    ( GetLevel (stateWithLevel (Option.some "basics"))).2 ≠ Option.none := by
  refine ⟨?_, by decide, by decide, by decide, by decide, by decide⟩
  intro st s h hok
  by_contra hmem
  simp only [List.mem_cons, List.mem_singleton, not_or] at hmem
  obtain ⟨h1, h2, h3, h4, h5, -⟩ := hmem
  simp only [GetLevel, h] at hok
  rw [if_neg h1, if_neg (by simp [h2, h3]), if_neg h4, if_neg h5] at hok
  simp at hok

/-- Concrete instance of C7: the accepted input `"detailed"` lower-cases to
a keyword of the exact five-keyword set. -/
theorem C7_exact_match_after_folding_witness :
    toLowerGo "detailed" ∈ (["none", "", "basic", "normal", "detailed"] : List String) :=
  C7_exact_match_after_folding.1 (stateWithLevel (Option.some "detailed"))
    "detailed" rfl (by decide)

/-- Claim C8: level resolution is deterministic and side-effect free — a call
of `GetLevel` leaves the process-wide state unchanged, and a second call in
that same state returns the identical value-and-error result. -/
theorem C8_resolution_deterministic :
    ∀ st : TelemetryState,
      (GetLevelCall st).2 = st ∧
      ( GetLevelCall ((GetLevelCall st).2)).1 = ( GetLevelCall st).1 ∧
      ( GetLevelCall ((GetLevelCall st).2)).2 = st :=
  fun _ => ⟨rfl, rfl, rfl⟩

/-- Claim C9: when the level pointer is `nil` (`Flags` never called),
`GetLevel` does not dereference it — the string stays empty — and the result
is `Basic` with a `nil` error. -/
theorem C9_nil_level_pointer_safe :
    ∀ st : TelemetryState, st.metricsLevelPtr = Option.none →
      GetLevel st = ( Basic, Option.none) := by
  intro st h
  unfold GetLevel
  rw [h]
  decide

/-- Concrete instance of C9 at the all-`nil` state. -/
theorem C9_nil_level_pointer_safe_witness :
    GetLevel (stateWithLevel Option.none) = ( Basic, Option.none) :=
  C9_nil_level_pointer_safe (stateWithLevel Option.none) rfl

/-- Claim C10: after `Flags` (and before any command-line override) the
accessors return the registered defaults — legacy metrics off, new metrics
on, instance-ID tagging on, the non-empty prefix `"otelcol"` — and the
default level string `"BASIC"` resolves to `Basic` with a `nil` error,
whatever the build type. -/
theorem C10_flags_registered_defaults :
    ∀ b : Bool,
      UseLegacyMetrics ( Flags b) = Option.some false ∧
      UseNewMetrics ( Flags b) = Option.some true ∧
      GetAddInstanceID ( Flags b) = Option.some true ∧
      GetMetricsPrefix ( Flags b) = Option.some "otelcol" ∧
      "otelcol" ≠ "" ∧
      ( Flags b).metricsLevelPtr = Option.some "BASIC" ∧
      GetLevel ( Flags b) = ( Basic, Option.none) := by
  intro b
  cases b <;> exact ⟨rfl, rfl, rfl, rfl, by decide, rfl, by decide⟩

end telemetry
